import Mathlib

/-!
Verification of the session security core of the municipality blog backend.

The embedded code:
- `backend/src/middleware/authRateLimiter.ts` (`FailedLoginTracker`): the
  per-identifier failed-login sliding-window tracker.
- `backend/src/utils/tokenBlacklist.ts` (`TokenBlacklistService`): the
  expiring set of revoked tokens.
- `backend/src/middleware/auth.ts` (`authenticate`): the authentication gate.
- `backend/src/controllers/authController.ts` (`login` / `logout`), the
  security-hardened controller that consults the tracker and writes the
  blacklist (the repository also carries a pre-hardening variant of the
  controller that touches neither; the hardened variant is the one the rest
  of the system — routes, middleware, SECURITY.md — is built around).

JavaScript `Map` objects are modelled as functions `K → Option V`;
timestamps are naturals (milliseconds, as `Date.now()`), and time
differences are computed in `Int` exactly as JavaScript number subtraction
would.
-/

/-- JavaScript `Map.get`: lookup of a key. -/
def jsMapGet {K V : Type} (m : K → Option V) (k : K) : Option V := m k

/-- JavaScript `Map.set`: insert or overwrite the binding of a key. -/
def jsMapSet {K V : Type} [DecidableEq K] (m : K → Option V) (k : K) (v : V) :
    K → Option V :=
  fun x => if x = k then some v else m x

/-- JavaScript `Map.delete`: remove the binding of a key. -/
def jsMapDelete {K V : Type} [DecidableEq K] (m : K → Option V) (k : K) :
    K → Option V :=
  fun x => if x = k then none else m x

/-- `Math.ceil (a / b)` for integers `a` and positive `b`, as JavaScript
computes it on the exact rational `a / b`. -/
def jsMathCeilDiv (a b : Int) : Int := -((-a).fdiv b)

/-! ## FailedLoginTracker (backend/src/middleware/authRateLimiter.ts) -/

/-- `MAX_ATTEMPTS` constant of `FailedLoginTracker`. -/
def MAX_ATTEMPTS : Nat := 3

/-- `WINDOW_MS` constant of `FailedLoginTracker` (15 minutes). -/
def WINDOW_MS : Nat := 15 * 60 * 1000

/-- `BLOCK_DURATION_MS` constant of `FailedLoginTracker` (1 hour). -/
def BLOCK_DURATION_MS : Nat := 60 * 60 * 1000

/-- One entry of the `attempts` map of `FailedLoginTracker`:
`{ count, firstAttempt, blocked }`. -/
structure AttemptRecord where
  count : Nat
  firstAttempt : Nat
  blocked : Bool
deriving DecidableEq, Repr

/-- The `attempts` map of `FailedLoginTracker`. -/
def TrackerState : Type := String → Option AttemptRecord

/-- The empty `attempts` map (a freshly constructed tracker). -/
def emptyTracker : TrackerState := fun _ => none

/-- `FailedLoginTracker.recordFailure(identifier)`. Returns the boolean the
method returns, paired with the `attempts` map after the call. -/
def recordFailure (attempts : TrackerState) (identifier : String) (now : Nat) :
    Bool × TrackerState :=
  match jsMapGet attempts identifier with
  | none => (false, jsMapSet attempts identifier ⟨1, now, false⟩)
  | some record =>
    let timeElapsed : Int := (now : Int) - (record.firstAttempt : Int)
    if record.blocked then
      if timeElapsed > (BLOCK_DURATION_MS : Int) then
        (false, jsMapDelete attempts identifier)
      else
        (true, attempts)
    else if timeElapsed > (WINDOW_MS : Int) then
      (false, jsMapSet attempts identifier ⟨1, now, false⟩)
    else
      let newCount := record.count + 1
      if newCount ≥ MAX_ATTEMPTS then
        (true, jsMapSet attempts identifier ⟨newCount, now, true⟩)
      else
        (false, jsMapSet attempts identifier ⟨newCount, record.firstAttempt, false⟩)

/-- `FailedLoginTracker.recordSuccess(identifier)`: deletes the record. -/
def recordSuccess (attempts : TrackerState) (identifier : String) : TrackerState :=
  jsMapDelete attempts identifier

/-- `FailedLoginTracker.isBlocked(identifier)`. Returns the boolean result
paired with the `attempts` map after the call (the method deletes the
record when the block duration has elapsed). -/
def isBlocked (attempts : TrackerState) (identifier : String) (now : Nat) :
    Bool × TrackerState :=
  match jsMapGet attempts identifier with
  | none => (false, attempts)
  | some record =>
    if record.blocked = false then
      (false, attempts)
    else
      let timeElapsed : Int := (now : Int) - (record.firstAttempt : Int)
      if timeElapsed > (BLOCK_DURATION_MS : Int) then
        (false, jsMapDelete attempts identifier)
      else
        (true, attempts)

/-- `FailedLoginTracker.getBlockTimeRemaining(identifier)`: remaining block
time in minutes, rounded up. -/
def getBlockTimeRemaining (attempts : TrackerState) (identifier : String)
    (now : Nat) : Int :=
  match jsMapGet attempts identifier with
  | none => 0
  | some record =>
    if record.blocked = false then 0
    else
      let timeElapsed : Int := (now : Int) - (record.firstAttempt : Int)
      jsMathCeilDiv ((BLOCK_DURATION_MS : Int) - timeElapsed) (60 * 1000)

/-! ## Tokens (jsonwebtoken, as used by the controller and middleware) -/

/-- The `JwtPayload` claim set carried by a session token. A missing or
zero `id` is JavaScript-falsy, as is an empty string. -/
structure JwtClaims where
  id : Nat
  email : String
  username : String
  role : String
deriving DecidableEq, Repr

/-- A bearer token as the middleware sees it: either a well-formed JWT
(claims, optional `exp` in seconds, and the secret it was signed with) or
an unparseable string. -/
inductive RawToken where
  | signed (claims : JwtClaims) (exp : Option Nat) (sig : String)
  | malformed (raw : String)
deriving DecidableEq, Repr

/-- `jwt.sign(payload, secret, \x7b expiresIn: "24h" \x7d)`: the issued token
carries `exp` = now in seconds plus 24 hours. -/
def jwtSign (payload : JwtClaims) (secret : String) (now : Nat) : RawToken :=
  .signed payload (some (now / 1000 + 24 * 60 * 60)) secret

/-- `jwt.verify(token, secret)`: checks the signature and, when an `exp`
claim is present, that the current time (in whole seconds) is before it.
Returns the decoded claims, or `none` for any `JsonWebTokenError` /
`TokenExpiredError`. -/
def jwtVerify (token : RawToken) (secret : String) (now : Nat) :
    Option JwtClaims :=
  match token with
  | .malformed _ => none
  | .signed claims exp sig =>
    if sig = secret then
      match exp with
      | some e => if now / 1000 ≥ e then none else some claims
      | none => some claims
    else
      none

/-- `jwt.decode(token)`: parses without verifying; `none` on a malformed
token (jsonwebtoken returns `null`). -/
def jwtDecode (token : RawToken) : Option (JwtClaims × Option Nat) :=
  match token with
  | .malformed _ => none
  | .signed claims exp _ => some (claims, exp)

/-! ## TokenBlacklistService (backend/src/utils/tokenBlacklist.ts) -/

/-- The `blacklist` map: token to its expiry timestamp (milliseconds). -/
def BlacklistState : Type := RawToken → Option Nat

/-- The empty blacklist. -/
def emptyBlacklist : BlacklistState := fun _ => none

/-- `TokenBlacklistService.blacklistToken(token, expiresAt)`. -/
def blacklistToken (blacklist : BlacklistState) (token : RawToken)
    (expiresAt : Nat) : BlacklistState :=
  jsMapSet blacklist token expiresAt

/-- `TokenBlacklistService.isBlacklisted(token)`: `false` when the token is
absent (or its stored expiry is the falsy `0`); when the stored expiry is in
the past the entry is deleted and the call returns `false`; otherwise
`true`. Returns the boolean paired with the map after the call. -/
def isBlacklisted (blacklist : BlacklistState) (token : RawToken) (now : Nat) :
    Bool × BlacklistState :=
  match jsMapGet blacklist token with
  | none => (false, blacklist)
  | some expiresAt =>
    if expiresAt = 0 then
      (false, blacklist)
    else if now > expiresAt then
      (false, jsMapDelete blacklist token)
    else
      (true, blacklist)

/-! ## Authentication gate (backend/src/middleware/auth.ts) -/

/-- The `Authorization` header value: either `Bearer <token>` or something
that does not start with `"Bearer "`. -/
inductive AuthHeaderVal where
  | bearer (token : RawToken)
  | nonBearer (raw : String)
deriving DecidableEq, Repr

/-- Outcome of the `authenticate` middleware: the HTTP response it sent
(status and error text), if any; the user it attached to the request, if
any; whether `jwt.verify` was ever reached; and the blacklist map after the
call. -/
structure AuthResult where
  status : Option Nat
  error : Option String
  user : Option JwtClaims
  verifyAttempted : Bool
  blacklist : BlacklistState

/-- The `authenticate` middleware: header check, then blacklist check, then
`JWT_SECRET` presence, then `jwt.verify`, then the payload truthiness check
on `id`, `email` and `username`; on success the decoded identity is
attached and the chain proceeds. -/
def authenticate (authHeader : Option AuthHeaderVal) (blacklist : BlacklistState)
    (jwtSecret : Option String) (now : Nat) : AuthResult :=
  match authHeader with
  | none =>
    ⟨some 401, some "Invalid or missing authorization header", none, false, blacklist⟩
  | some (.nonBearer _) =>
    ⟨some 401, some "Invalid or missing authorization header", none, false, blacklist⟩
  | some (.bearer token) =>
    let bl := isBlacklisted blacklist token now
    if bl.1 then
      ⟨some 401, some "Token has been invalidated. Please login again.", none, false, bl.2⟩
    else
      match jwtSecret with
      | none =>
        -- the throw on a missing JWT_SECRET lands in the outer catch
        ⟨some 500, some "Authentication failed", none, false, bl.2⟩
      | some secret =>
        match jwtVerify token secret now with
        | none =>
          ⟨some 401, some "Invalid or expired token", none, true, bl.2⟩
        | some decoded =>
          if decoded.id = 0 ∨ decoded.email = "" ∨ decoded.username = "" then
            ⟨some 401, some "Invalid token payload", none, true, bl.2⟩
          else
            ⟨none, none, some decoded, true, bl.2⟩

/-! ## Auth controller (backend/src/controllers/authController.ts,
hardened variant) -/

/-- A row of the `users` table, as the login query selects it. -/
structure UserRow where
  id : Nat
  email : String
  username : String
  role : String
  password : String
deriving DecidableEq, Repr

/-- The body and origin of a login request. -/
structure LoginRequest where
  email : String
  password : String
  ip : String
deriving DecidableEq, Repr

/-- Outcome of the `login` handler: HTTP status, response fields, the
issued token (if any), the tracker map after the call, and whether the
handler reached the user query and the bcrypt comparison. -/
structure LoginResult where
  status : Nat
  success : Bool
  error : Option String
  message : Option String
  token : Option RawToken
  user : Option UserRow
  tracker : TrackerState
  dbLookup : Bool
  bcryptCalled : Bool

/-- JavaScript `String.prototype.toLowerCase` (and SQL `LOWER`), modelled
as per-character lowercasing. -/
def jsToLowerCase (s : String) : String := String.mk (s.data.map Char.toLower)

/-- The compound identifier the controller tracks failures under:
lowercased email, a colon, and the client ip (with the JavaScript-falsy
empty string falling back to `"unknown"`). -/
def loginIdentifier (req : LoginRequest) : String :=
  jsToLowerCase req.email ++ ":" ++ (if req.ip = "" then "unknown" else req.ip)

/-- `SELECT * FROM users WHERE LOWER(email) = LOWER($1)`, first row. -/
def findUserByEmail (db : List UserRow) (email : String) : Option UserRow :=
  (db.filter (fun u => jsToLowerCase u.email = jsToLowerCase email)).head?

/-- The hardened `login` handler: input presence check; block check (with
the remaining-minutes message) before any user query; user lookup; bcrypt
comparison; failure recording on unknown email or wrong password (both with
the one generic message); success clearing and token issuance. The bcrypt
comparison is abstracted as the `compare` parameter. -/
def login (req : LoginRequest) (db : List UserRow) (tracker : TrackerState)
    (jwtSecret : Option String) (compare : String → String → Bool)
    (now : Nat) : LoginResult :=
  if req.email = "" ∨ req.password = "" then
    ⟨400, false, some "Email and password are required", none, none, none,
      tracker, false, false⟩
  else
    let identifier := loginIdentifier req
    let blk := isBlocked tracker identifier now
    if blk.1 then
      let remainingMinutes := getBlockTimeRemaining blk.2 identifier now
      ⟨429, false,
        some ("Too many failed login attempts. Please try again in "
          ++ toString remainingMinutes ++ " minutes."),
        none, none, none, blk.2, false, false⟩
    else
      match findUserByEmail db req.email with
      | none =>
        let rf := recordFailure blk.2 identifier now
        ⟨401, false, some "Invalid credentials", none, none, none, rf.2,
          true, false⟩
      | some user =>
        if compare req.password user.password then
          let cleared := recordSuccess blk.2 identifier
          match jwtSecret with
          | none =>
            -- the throw on a missing JWT_SECRET lands in the outer catch
            ⟨500, false, some "Internal server error", none, none, none,
              cleared, true, true⟩
          | some secret =>
            ⟨200, true, none, some "Login successful",
              some (jwtSign ⟨user.id, user.email, user.username, user.role⟩
                secret now),
              some user, cleared, true, true⟩
        else
          let rf := recordFailure blk.2 identifier now
          ⟨401, false, some "Invalid credentials", none, none, none, rf.2,
            true, true⟩

/-- Outcome of the `logout` handler. -/
structure LogoutResult where
  status : Nat
  success : Bool
  message : Option String
  blacklist : BlacklistState

/-- The hardened `logout` handler: when a `Bearer` token is presented and
`jwt.decode` yields a truthy `exp`, the token is blacklisted until
`exp * 1000`; in every case the handler responds 200 with the same success
body. -/
def logout (authHeader : Option AuthHeaderVal) (blacklist : BlacklistState) :
    LogoutResult :=
  let newBlacklist :=
    match authHeader with
    | some (.bearer token) =>
      match jwtDecode token with
      | some (_, some exp) =>
        if exp ≠ 0 then blacklistToken blacklist token (exp * 1000)
        else blacklist
      | _ => blacklist
    | _ => blacklist
  ⟨200, true, some "Logged out successfully", newBlacklist⟩

/-! ## Map lemmas -/

theorem jsMapGet_set {K V : Type} [DecidableEq K] (m : K → Option V) (k : K)
    (v : V) (x : K) :
    jsMapGet (jsMapSet m k v) x = if x = k then some v else jsMapGet m x := by
  simp [jsMapGet, jsMapSet]

theorem jsMapGet_delete {K V : Type} [DecidableEq K] (m : K → Option V)
    (k x : K) :
    jsMapGet (jsMapDelete m k) x = if x = k then none else jsMapGet m x := by
  simp [jsMapGet, jsMapDelete]

/-! ## Tracker claims -/

/-- Claim C4: starting from no record with threshold 3, two `recordFailure`
calls within the window leave `isBlocked` false; the third call within the
window makes `isBlocked` true and resets the record's window-start timestamp
to the time of that third call (serving as the block's start time). -/
theorem C4_two_failures_open_third_blocks (s0 : TrackerState) (id : String)
    (t1 t2 t3 tq tq3 : Nat)
    (h0 : jsMapGet s0 id = none)
    (h12 : t1 ≤ t2) (h23 : t2 ≤ t3)
    (hw2 : t2 - t1 ≤ WINDOW_MS) (hw3 : t3 - t1 ≤ WINDOW_MS)
    (hq3 : t3 ≤ tq3) (hq3b : tq3 - t3 ≤ BLOCK_DURATION_MS) :
    (isBlocked (recordFailure (recordFailure s0 id t1).2 id t2).2 id tq).1
        = false ∧
    (isBlocked (recordFailure (recordFailure (recordFailure s0 id t1).2 id
        t2).2 id t3).2 id tq3).1 = true ∧
    jsMapGet (recordFailure (recordFailure (recordFailure s0 id t1).2 id
        t2).2 id t3).2 id = some ⟨3, t3, true⟩ := by
  have hs1 : (recordFailure s0 id t1).2 = jsMapSet s0 id ⟨1, t1, false⟩ := by
    simp [recordFailure, h0]
  have hg1 : jsMapGet (jsMapSet s0 id ⟨1, t1, false⟩) id
      = some ⟨1, t1, false⟩ := by
    simp [jsMapGet_set]
  have hrf2 : recordFailure (jsMapSet s0 id ⟨1, t1, false⟩) id t2
      = (false, jsMapSet (jsMapSet s0 id ⟨1, t1, false⟩) id ⟨2, t1, false⟩) := by
    simp only [recordFailure, hg1]
    have hcond : ¬ ((t2 : Int) - (t1 : Int) > (WINDOW_MS : Int)) := by omega
    simp [hcond, MAX_ATTEMPTS]
  have hg2 : jsMapGet (jsMapSet (jsMapSet s0 id ⟨1, t1, false⟩) id
      ⟨2, t1, false⟩) id = some ⟨2, t1, false⟩ := by
    simp [jsMapGet_set]
  have hrf3 : recordFailure (jsMapSet (jsMapSet s0 id ⟨1, t1, false⟩) id
        ⟨2, t1, false⟩) id t3
      = (true, jsMapSet (jsMapSet (jsMapSet s0 id ⟨1, t1, false⟩) id
        ⟨2, t1, false⟩) id ⟨3, t3, true⟩) := by
    simp only [recordFailure, hg2]
    have hcond : ¬ ((t3 : Int) - (t1 : Int) > (WINDOW_MS : Int)) := by omega
    simp [hcond, MAX_ATTEMPTS]
  have hg3 : jsMapGet (jsMapSet (jsMapSet (jsMapSet s0 id ⟨1, t1, false⟩) id
      ⟨2, t1, false⟩) id ⟨3, t3, true⟩) id = some ⟨3, t3, true⟩ := by
    simp [jsMapGet_set]
  refine ⟨?_, ?_, ?_⟩
  · rw [hs1, hrf2]
    simp [isBlocked, hg2]
  · rw [hs1, hrf2, hrf3]
    simp only [isBlocked, hg3]
    have hcond : ¬ ((tq3 : Int) - (t3 : Int) > (BLOCK_DURATION_MS : Int)) := by
      omega
    simp [hcond]
  · rw [hs1, hrf2, hrf3]
    exact hg3

/-- Concrete instantiation of `C4_two_failures_open_third_blocks`. -/
theorem C4_witness :
    (isBlocked (recordFailure (recordFailure emptyTracker "a@b:ip" 0).2
        "a@b:ip" 1000).2 "a@b:ip" 7).1 = false ∧
    (isBlocked (recordFailure (recordFailure (recordFailure emptyTracker
        "a@b:ip" 0).2 "a@b:ip" 1000).2 "a@b:ip" 2000).2 "a@b:ip" 2000).1
        = true ∧
    jsMapGet (recordFailure (recordFailure (recordFailure emptyTracker
        "a@b:ip" 0).2 "a@b:ip" 1000).2 "a@b:ip" 2000).2 "a@b:ip"
        = some ⟨3, 2000, true⟩ :=
  C4_two_failures_open_third_blocks emptyTracker "a@b:ip" 0 1000 2000 7 2000
    rfl (by decide) (by decide) (by decide) (by decide) (by decide) (by decide)

/-- Claim C5 counterexample: after the sequence of three `recordFailure`
calls that engages the block, a further `recordFailure` call made while the
identifier is already Blocked (block not elapsed) returns `true`, although
it causes no transition into Blocked — the record was already blocked
before the call — so the claimed reading (return value `true` iff this call
caused the transition, hence `false` here) is refuted. -/
theorem C5_counterexample :
    jsMapGet (recordFailure (recordFailure (recordFailure emptyTracker
        "a" 0).2 "a" 0).2 "a" 0).2 "a" = some ⟨3, 0, true⟩ ∧
    (recordFailure (recordFailure (recordFailure (recordFailure emptyTracker
        "a" 0).2 "a" 0).2 "a" 0).2 "a" 5).1 = true := by
  constructor
  · decide
  · decide

/-- Claim C5 (amended): `recordFailure(identifier)` returns `true` iff the
identifier's record is in the Blocked state when the call returns — that
is, iff this call caused the transition into Blocked or the identifier was
already Blocked with its block not yet elapsed. -/
theorem C5_returns_blocked_after_call (attempts : TrackerState)
    (identifier : String) (now : Nat) :
    (recordFailure attempts identifier now).1
      = (((recordFailure attempts identifier now).2 identifier).map
          AttemptRecord.blocked).getD false := by
  unfold recordFailure
  cases hget : jsMapGet attempts identifier with
  | none =>
    simp [jsMapSet, jsMapGet]
  | some record =>
    simp only []
    by_cases hb : record.blocked
    · by_cases helapsed :
          (now : Int) - (record.firstAttempt : Int) > (BLOCK_DURATION_MS : Int)
      · simp [hb, helapsed, jsMapDelete]
      · simp only [jsMapGet] at hget
        simp [hb, helapsed, hget]
    · by_cases hwin :
          (now : Int) - (record.firstAttempt : Int) > (WINDOW_MS : Int)
      · simp [hb, hwin, jsMapSet]
      · by_cases hmax : record.count + 1 ≥ MAX_ATTEMPTS
        · simp [hb, hwin, hmax, jsMapSet]
        · simp [hb, hwin, hmax, jsMapSet]

/-- Claim C6 counterexample: an identifier is driven into Blocked at time 0
by three failures; a `recordFailure` call after the block duration has
elapsed (at 3600001 ms) deletes the record and leaves the identifier with
no record at all — in particular not with the claimed fresh
`count = 1, windowStart = now` record — so the triggering failure is not
recorded. -/
theorem C6_counterexample :
    jsMapGet (recordFailure (recordFailure (recordFailure emptyTracker
        "a" 0).2 "a" 0).2 "a" 0).2 "a" = some ⟨3, 0, true⟩ ∧
    (recordFailure (recordFailure (recordFailure (recordFailure emptyTracker
        "a" 0).2 "a" 0).2 "a" 0).2 "a" 3600001).1 = false ∧
    jsMapGet (recordFailure (recordFailure (recordFailure (recordFailure
        emptyTracker "a" 0).2 "a" 0).2 "a" 0).2 "a" 3600001).2 "a" = none ∧
    ¬ jsMapGet (recordFailure (recordFailure (recordFailure (recordFailure
        emptyTracker "a" 0).2 "a" 0).2 "a" 0).2 "a" 3600001).2 "a"
        = some ⟨1, 3600001, false⟩ := by
  refine ⟨by decide, by decide, by decide, by decide⟩

/-- Claim C6 (amended): a `recordFailure` call on a Blocked identifier
whose block duration has elapsed deletes the record and returns `false`,
leaving the identifier Clean (no record); the failure that triggered the
check is not itself recorded. -/
theorem C6_elapsed_block_deletes_without_recording (attempts : TrackerState)
    (identifier : String) (now : Nat) (record : AttemptRecord)
    (hget : jsMapGet attempts identifier = some record)
    (hb : record.blocked = true)
    (helapsed : (now : Int) - (record.firstAttempt : Int)
        > (BLOCK_DURATION_MS : Int)) :
    (recordFailure attempts identifier now).1 = false ∧
    jsMapGet (recordFailure attempts identifier now).2 identifier = none := by
  unfold recordFailure
  rw [hget]
  simp [hb, helapsed, jsMapGet_delete]

/-- Concrete instantiation of `C6_elapsed_block_deletes_without_recording`. -/
theorem C6_witness :
    (recordFailure (jsMapSet emptyTracker "a" ⟨3, 0, true⟩) "a" 3600001).1
        = false ∧
    jsMapGet (recordFailure (jsMapSet emptyTracker "a" ⟨3, 0, true⟩) "a"
        3600001).2 "a" = none :=
  C6_elapsed_block_deletes_without_recording
    (jsMapSet emptyTracker "a" ⟨3, 0, true⟩) "a" 3600001 ⟨3, 0, true⟩
    (by decide) rfl (by decide)

/-! ## Blacklist claims -/

/-- Claim C7: revoking the same token with the same expiry twice leaves the
blacklist map in exactly the state one call produces, and `isBlacklisted`
answers `true` after either one or two calls whenever the expiry is still
in the future. -/
theorem C7_blacklist_idempotent (blacklist : BlacklistState) (token : RawToken)
    (expiresAt now : Nat) :
    blacklistToken (blacklistToken blacklist token expiresAt) token expiresAt
        = blacklistToken blacklist token expiresAt ∧
    (now < expiresAt →
      (isBlacklisted (blacklistToken blacklist token expiresAt) token now).1
          = true ∧
      (isBlacklisted (blacklistToken (blacklistToken blacklist token expiresAt)
          token expiresAt) token now).1 = true) := by
  have hset : blacklistToken (blacklistToken blacklist token expiresAt) token
      expiresAt = blacklistToken blacklist token expiresAt := by
    funext x
    simp only [blacklistToken, jsMapSet]
    by_cases hx : x = token <;> simp [hx]
  have hone : ∀ h : now < expiresAt,
      (isBlacklisted (blacklistToken blacklist token expiresAt) token now).1
        = true := by
    intro h
    have hget : jsMapGet (blacklistToken blacklist token expiresAt) token
        = some expiresAt := by
      simp [blacklistToken, jsMapGet_set]
    unfold isBlacklisted
    rw [hget]
    have hne : ¬ expiresAt = 0 := by omega
    have hgt : ¬ now > expiresAt := by omega
    simp [hne, hgt]
  refine ⟨hset, fun h => ⟨hone h, ?_⟩⟩
  rw [hset]
  exact hone h

/-- Concrete instantiation of `C7_blacklist_idempotent`. -/
theorem C7_witness :
    (isBlacklisted (blacklistToken emptyBlacklist (.malformed "tok") 5000)
        (.malformed "tok") 0).1 = true :=
  ((C7_blacklist_idempotent emptyBlacklist (.malformed "tok") 5000 0).2
    (by decide)).1

/-- Claim C1: logging out with a session token (a well-formed bearer token
carrying a truthy `exp` claim, as every token the codec issues does) inserts
that token into the blacklist, so `isBlacklisted` answers `true` for it at
any instant before its natural expiry `exp * 1000`; and `logout` responds
200/success for every request, including ones whose token is malformed,
absent, or already expired. -/
theorem C1_logout_blacklists_and_always_succeeds (blacklist : BlacklistState)
    (claims : JwtClaims) (exp : Nat) (sig : String) (now : Nat)
    (hexp : exp ≠ 0) (hnow : now < exp * 1000) :
    (isBlacklisted
        (logout (some (.bearer (.signed claims (some exp) sig))) blacklist
          ).blacklist
        (.signed claims (some exp) sig) now).1 = true ∧
    (∀ (h : Option AuthHeaderVal) (b : BlacklistState),
      (logout h b).status = 200 ∧ (logout h b).success = true) := by
  constructor
  · have hbl : (logout (some (.bearer (.signed claims (some exp) sig)))
        blacklist).blacklist
        = blacklistToken blacklist (.signed claims (some exp) sig)
            (exp * 1000) := by
      simp [logout, jwtDecode, hexp]
    rw [hbl]
    have hget : jsMapGet (blacklistToken blacklist
        (.signed claims (some exp) sig) (exp * 1000))
        (.signed claims (some exp) sig) = some (exp * 1000) := by
      simp [blacklistToken, jsMapGet_set]
    unfold isBlacklisted
    rw [hget]
    have hne : ¬ exp * 1000 = 0 := by omega
    have hgt : ¬ now > exp * 1000 := by omega
    simp [hne, hgt]
  · intro h b
    cases h with
    | none => exact ⟨rfl, rfl⟩
    | some v =>
      cases v with
      | nonBearer raw => exact ⟨rfl, rfl⟩
      | bearer token => exact ⟨rfl, rfl⟩

/-- Concrete instantiation of `C1_logout_blacklists_and_always_succeeds`:
a freshly issued token is revoked by logout, and a logout presenting a
malformed token still responds 200/success. -/
theorem C1_witness :
    (isBlacklisted
        (logout (some (.bearer (.signed ⟨1, "a@b", "admin", "admin"⟩
          (some 86400) "s"))) emptyBlacklist).blacklist
        (.signed ⟨1, "a@b", "admin", "admin"⟩ (some 86400) "s") 1000).1
        = true ∧
    (logout (some (.bearer (.malformed "junk"))) emptyBlacklist).status = 200 ∧
    (logout (some (.bearer (.malformed "junk"))) emptyBlacklist).success
        = true := by
  have h := C1_logout_blacklists_and_always_succeeds emptyBlacklist
    ⟨1, "a@b", "admin", "admin"⟩ 86400 "s" 1000 (by decide) (by decide)
  exact ⟨h.1, (h.2 (some (.bearer (.malformed "junk"))) emptyBlacklist).1,
    (h.2 (some (.bearer (.malformed "junk"))) emptyBlacklist).2⟩

/-! ## Authentication gate claims -/

/-- Claim C8: a request presenting a revoked (blacklisted, unexpired)
bearer token is rejected 401 with the dedicated revocation message, which
differs from the invalid/expired-token message, and `jwt.verify` is never
reached for it — the blacklist check precedes signature verification. -/
theorem C8_revoked_rejected_before_verify (blacklist : BlacklistState)
    (token : RawToken) (jwtSecret : Option String) (now expiresAt : Nat)
    (hget : jsMapGet blacklist token = some expiresAt)
    (hne : expiresAt ≠ 0) (hfresh : ¬ now > expiresAt) :
    (authenticate (some (.bearer token)) blacklist jwtSecret now).status
        = some 401 ∧
    (authenticate (some (.bearer token)) blacklist jwtSecret now).error
        = some "Token has been invalidated. Please login again." ∧
    "Token has been invalidated. Please login again."
        ≠ "Invalid or expired token" ∧
    (authenticate (some (.bearer token)) blacklist jwtSecret now
        ).verifyAttempted = false ∧
    (authenticate (some (.bearer token)) blacklist jwtSecret now).user
        = none := by
  have hbl : isBlacklisted blacklist token now = (true, blacklist) := by
    unfold isBlacklisted
    rw [hget]
    simp [hne, hfresh]
  refine ⟨?_, ?_, by decide, ?_, ?_⟩ <;> simp [authenticate, hbl]

/-- Concrete instantiation of `C8_revoked_rejected_before_verify`. -/
theorem C8_witness :
    (authenticate (some (.bearer (.malformed "tok")))
        (blacklistToken emptyBlacklist (.malformed "tok") 5000)
        (some "s") 0).status = some 401 ∧
    (authenticate (some (.bearer (.malformed "tok")))
        (blacklistToken emptyBlacklist (.malformed "tok") 5000)
        (some "s") 0).verifyAttempted = false :=
  ⟨(C8_revoked_rejected_before_verify
      (blacklistToken emptyBlacklist (.malformed "tok") 5000)
      (.malformed "tok") (some "s") 0 5000 (by decide) (by decide)
      (by decide)).1,
   (C8_revoked_rejected_before_verify
      (blacklistToken emptyBlacklist (.malformed "tok") 5000)
      (.malformed "tok") (some "s") 0 5000 (by decide) (by decide)
      (by decide)).2.2.2.1⟩

/-- Claim C10: a non-blacklisted bearer token whose signature verifies and
which is not expired is still rejected 401 with "Invalid token payload"
when the decoded payload misses a truthy `id`, `email` or `username`, and
no identity is attached to the request. -/
theorem C10_payload_claims_required (blacklist : BlacklistState)
    (token : RawToken) (secret : String) (now : Nat) (decoded : JwtClaims)
    (hbl : (isBlacklisted blacklist token now).1 = false)
    (hverify : jwtVerify token secret now = some decoded)
    (hfalsy : decoded.id = 0 ∨ decoded.email = "" ∨ decoded.username = "") :
    (authenticate (some (.bearer token)) blacklist (some secret) now).status
        = some 401 ∧
    (authenticate (some (.bearer token)) blacklist (some secret) now).error
        = some "Invalid token payload" ∧
    (authenticate (some (.bearer token)) blacklist (some secret) now).user
        = none := by
  simp only [authenticate]
  simp only [hbl, Bool.false_eq_true, if_false]
  simp only [hverify]
  rw [if_pos hfalsy]
  exact ⟨rfl, rfl, rfl⟩

/-- Concrete instantiation of `C10_payload_claims_required`: a correctly
signed, unexpired token with an empty `username` claim is rejected. -/
theorem C10_witness :
    (authenticate (some (.bearer (.signed ⟨1, "a@b", "", "admin"⟩
        (some 100) "s"))) emptyBlacklist (some "s") 0).status = some 401 ∧
    (authenticate (some (.bearer (.signed ⟨1, "a@b", "", "admin"⟩
        (some 100) "s"))) emptyBlacklist (some "s") 0).user = none := by
  have h := C10_payload_claims_required emptyBlacklist
    (.signed ⟨1, "a@b", "", "admin"⟩ (some 100) "s") "s" 0
    ⟨1, "a@b", "", "admin"⟩ (by decide) (by decide)
    (Or.inr (Or.inr rfl))
  exact ⟨h.1, h.2.2⟩

/-! ## Login flow claims -/

/-- Claim C2: a login request whose compound identifier is currently
blocked is rejected 429 with the remaining-block-time message, and the
handler performs neither the user query nor the bcrypt comparison. -/
theorem C2_blocked_login_skips_lookup_and_hash (req : LoginRequest)
    (db : List UserRow) (tracker : TrackerState) (jwtSecret : Option String)
    (compare : String → String → Bool) (now : Nat)
    (hemail : req.email ≠ "") (hpw : req.password ≠ "")
    (hblk : (isBlocked tracker (loginIdentifier req) now).1 = true) :
    (login req db tracker jwtSecret compare now).status = 429 ∧
    (login req db tracker jwtSecret compare now).error
        = some ("Too many failed login attempts. Please try again in "
          ++ toString (getBlockTimeRemaining
              (isBlocked tracker (loginIdentifier req) now).2
              (loginIdentifier req) now) ++ " minutes.") ∧
    (login req db tracker jwtSecret compare now).dbLookup = false ∧
    (login req db tracker jwtSecret compare now).bcryptCalled = false := by
  have hval : ¬ (req.email = "" ∨ req.password = "") := by
    push_neg
    exact ⟨hemail, hpw⟩
  simp only [login, if_neg hval, hblk, if_true]
  simp

/-- Concrete instantiation of `C2_blocked_login_skips_lookup_and_hash`:
the blocked request is rejected with the 60-minutes message and no
lookup or hash comparison happens. -/
theorem C2_witness :
    (login ⟨"a@b", "pw", "9.9.9.9"⟩ [] (jsMapSet emptyTracker "a@b:9.9.9.9"
        ⟨3, 0, true⟩) (some "s") (fun a b => a = b) 0).status = 429 ∧
    (login ⟨"a@b", "pw", "9.9.9.9"⟩ [] (jsMapSet emptyTracker "a@b:9.9.9.9"
        ⟨3, 0, true⟩) (some "s") (fun a b => a = b) 0).error
        = some "Too many failed login attempts. Please try again in 60 minutes." ∧
    (login ⟨"a@b", "pw", "9.9.9.9"⟩ [] (jsMapSet emptyTracker "a@b:9.9.9.9"
        ⟨3, 0, true⟩) (some "s") (fun a b => a = b) 0).dbLookup = false ∧
    (login ⟨"a@b", "pw", "9.9.9.9"⟩ [] (jsMapSet emptyTracker "a@b:9.9.9.9"
        ⟨3, 0, true⟩) (some "s") (fun a b => a = b) 0).bcryptCalled = false := by
  have h := C2_blocked_login_skips_lookup_and_hash ⟨"a@b", "pw", "9.9.9.9"⟩ []
    (jsMapSet emptyTracker "a@b:9.9.9.9" ⟨3, 0, true⟩) (some "s")
    (fun a b => a = b) 0 (by decide) (by decide) (by decide)
  refine ⟨h.1, ?_, h.2.2.1, h.2.2.2⟩
  rw [h.2.1]
  decide

/-- Claim C9: an unblocked login attempt with an unknown email and an
unblocked attempt with a known email but wrong password receive responses
that agree on status code and every body field (the same 401 /
"Invalid credentials" body, no token), revealing nothing about whether the
identifier exists. -/
theorem C9_unknown_vs_wrong_secret_indistinguishable (db : List UserRow)
    (tracker : TrackerState) (jwtSecret : Option String)
    (compare : String → String → Bool) (now : Nat)
    (r1 r2 : LoginRequest) (u : UserRow)
    (h1e : r1.email ≠ "") (h1p : r1.password ≠ "")
    (h2e : r2.email ≠ "") (h2p : r2.password ≠ "")
    (hb1 : (isBlocked tracker (loginIdentifier r1) now).1 = false)
    (hb2 : (isBlocked tracker (loginIdentifier r2) now).1 = false)
    (hfind1 : findUserByEmail db r1.email = none)
    (hfind2 : findUserByEmail db r2.email = some u)
    (hcmp : compare r2.password u.password = false) :
    (login r1 db tracker jwtSecret compare now).status
        = (login r2 db tracker jwtSecret compare now).status ∧
    (login r1 db tracker jwtSecret compare now).success
        = (login r2 db tracker jwtSecret compare now).success ∧
    (login r1 db tracker jwtSecret compare now).error
        = (login r2 db tracker jwtSecret compare now).error ∧
    (login r1 db tracker jwtSecret compare now).message
        = (login r2 db tracker jwtSecret compare now).message ∧
    (login r1 db tracker jwtSecret compare now).token
        = (login r2 db tracker jwtSecret compare now).token ∧
    (login r1 db tracker jwtSecret compare now).status = 401 ∧
    (login r1 db tracker jwtSecret compare now).error
        = some "Invalid credentials" := by
  have hval1 : ¬ (r1.email = "" ∨ r1.password = "") := by
    push_neg
    exact ⟨h1e, h1p⟩
  have hval2 : ¬ (r2.email = "" ∨ r2.password = "") := by
    push_neg
    exact ⟨h2e, h2p⟩
  have e1 : login r1 db tracker jwtSecret compare now
      = ⟨401, false, some "Invalid credentials", none, none, none,
          (recordFailure (isBlocked tracker (loginIdentifier r1) now).2
            (loginIdentifier r1) now).2, true, false⟩ := by
    simp only [login, if_neg hval1, hb1, Bool.false_eq_true, if_false, hfind1]
  have e2 : login r2 db tracker jwtSecret compare now
      = ⟨401, false, some "Invalid credentials", none, none, none,
          (recordFailure (isBlocked tracker (loginIdentifier r2) now).2
            (loginIdentifier r2) now).2, true, true⟩ := by
    simp only [login, if_neg hval2, hb2, Bool.false_eq_true, if_false, hfind2,
      hcmp]
  rw [e1, e2]
  exact ⟨rfl, rfl, rfl, rfl, rfl, rfl, rfl⟩

/-- Concrete instantiation of
`C9_unknown_vs_wrong_secret_indistinguishable`: with one admin account on
file, an unknown-email attempt and a wrong-password attempt produce the
same 401 / "Invalid credentials" response. -/
theorem C9_witness :
    (login ⟨"c@d", "x", "ip"⟩ [⟨1, "a@b", "admin", "admin", "hash"⟩]
        emptyTracker (some "s") (fun a b => a = b) 0).status
      = (login ⟨"a@b", "wrong", "ip"⟩ [⟨1, "a@b", "admin", "admin", "hash"⟩]
        emptyTracker (some "s") (fun a b => a = b) 0).status ∧
    (login ⟨"c@d", "x", "ip"⟩ [⟨1, "a@b", "admin", "admin", "hash"⟩]
        emptyTracker (some "s") (fun a b => a = b) 0).error
      = (login ⟨"a@b", "wrong", "ip"⟩ [⟨1, "a@b", "admin", "admin", "hash"⟩]
        emptyTracker (some "s") (fun a b => a = b) 0).error := by
  have h := C9_unknown_vs_wrong_secret_indistinguishable
    [⟨1, "a@b", "admin", "admin", "hash"⟩] emptyTracker (some "s")
    (fun a b => a = b) 0 ⟨"c@d", "x", "ip"⟩ ⟨"a@b", "wrong", "ip"⟩
    ⟨1, "a@b", "admin", "admin", "hash"⟩ (by decide) (by decide) (by decide)
    (by decide) (by decide) (by decide) (by decide) (by decide) (by decide)
  exact ⟨h.1, h.2.2.1⟩

/-! ## Claim C3: the three-wrong-attempts scenario -/

/-- The account store of the C3 scenario: one admin account. -/
def c3db : List UserRow := [⟨1, "a@b", "admin", "admin", "hash"⟩]

/-- A wrong-password login request of the C3 scenario. -/
def c3reqWrong : LoginRequest := ⟨"a@b", "wrong", "ip"⟩

/-- The correct-password login request of the C3 scenario. -/
def c3reqRight : LoginRequest := ⟨"a@b", "hash", "ip"⟩

/-- The bcrypt comparison of the C3 scenario: the stored "hash" is the
password itself. -/
def c3compare : String → String → Bool := fun a b => a = b

/-- First wrong-password attempt, at time 0. -/
def c3attempt1 : LoginResult :=
  login c3reqWrong c3db emptyTracker (some "s") c3compare 0

/-- Second wrong-password attempt, at time 1000. -/
def c3attempt2 : LoginResult :=
  login c3reqWrong c3db c3attempt1.tracker (some "s") c3compare 1000

/-- Third wrong-password attempt, at time 2000. -/
def c3attempt3 : LoginResult :=
  login c3reqWrong c3db c3attempt2.tracker (some "s") c3compare 2000

/-- Fourth attempt, with the correct password, at time 60000. -/
def c3attempt4 : LoginResult :=
  login c3reqRight c3db c3attempt3.tracker (some "s") c3compare 60000

/-- Claim C3 counterexample: with threshold 3, window 15 min and block
60 min, the third consecutive wrong-password attempt from the same origin
is answered with the generic 401 "Invalid credentials" response — not with
a rate-limited status carrying the remaining block minutes, as the claim
states. (The block does engage during that third call, but only the next
request observes it.) -/
theorem C3_counterexample :
    c3attempt3.status = 401 ∧
    ¬ c3attempt3.status = 429 ∧
    c3attempt3.error = some "Invalid credentials" := by
  refine ⟨by decide, by decide, by decide⟩

/-- Claim C3 (amended): in the same scenario the third wrong-password
attempt is answered with the generic 401 "Invalid credentials" response
while transitioning the identifier's record into Blocked (count 3, block
start = time of the third attempt); the block, once engaged, is time-based:
a fourth attempt with the correct secret within the block duration is
rejected 429 with the remaining-block-minutes message. -/
theorem C3_third_attempt_generic_fourth_blocked (db : List UserRow)
    (u : UserRow) (reqW reqC : LoginRequest) (secret : Option String)
    (compare : String → String → Bool) (t1 t2 t3 t4 : Nat)
    (tr0 : TrackerState)
    (h0 : jsMapGet tr0 (loginIdentifier reqW) = none)
    (hWe : reqW.email ≠ "") (hWp : reqW.password ≠ "")
    (hCe : reqC.email ≠ "") (hCp : reqC.password ≠ "")
    (hEmail : reqC.email = reqW.email) (hIp : reqC.ip = reqW.ip)
    (hfind : findUserByEmail db reqW.email = some u)
    (hcmpW : compare reqW.password u.password = false)
    (hcmpC : compare reqC.password u.password = true)
    (h12 : t1 ≤ t2) (h23 : t2 ≤ t3) (h34 : t3 ≤ t4)
    (hw2 : t2 - t1 ≤ WINDOW_MS) (hw3 : t3 - t1 ≤ WINDOW_MS)
    (hb4 : t4 - t3 ≤ BLOCK_DURATION_MS) :
    (login reqW db (login reqW db (login reqW db tr0 secret compare
        t1).tracker secret compare t2).tracker secret compare t3).status
        = 401 ∧
    (login reqW db (login reqW db (login reqW db tr0 secret compare
        t1).tracker secret compare t2).tracker secret compare t3).error
        = some "Invalid credentials" ∧
    jsMapGet (login reqW db (login reqW db (login reqW db tr0 secret compare
        t1).tracker secret compare t2).tracker secret compare t3).tracker
        (loginIdentifier reqW) = some ⟨3, t3, true⟩ ∧
    (login reqC db (login reqW db (login reqW db (login reqW db tr0 secret
        compare t1).tracker secret compare t2).tracker secret compare
        t3).tracker secret compare t4).status = 429 ∧
    (login reqC db (login reqW db (login reqW db (login reqW db tr0 secret
        compare t1).tracker secret compare t2).tracker secret compare
        t3).tracker secret compare t4).error
        = some ("Too many failed login attempts. Please try again in "
          ++ toString (jsMathCeilDiv ((BLOCK_DURATION_MS : Int)
              - ((t4 : Int) - (t3 : Int))) (60 * 1000)) ++ " minutes.") := by
  have hvalW : ¬ (reqW.email = "" ∨ reqW.password = "") := by
    push_neg
    exact ⟨hWe, hWp⟩
  have hvalC : ¬ (reqC.email = "" ∨ reqC.password = "") := by
    push_neg
    exact ⟨hCe, hCp⟩
  have hid : loginIdentifier reqC = loginIdentifier reqW := by
    simp [loginIdentifier, hEmail, hIp]
  have hb0 : isBlocked tr0 (loginIdentifier reqW) t1 = (false, tr0) := by
    unfold isBlocked
    rw [h0]
  have hrf1 : recordFailure tr0 (loginIdentifier reqW) t1
      = (false, jsMapSet tr0 (loginIdentifier reqW) ⟨1, t1, false⟩) := by
    unfold recordFailure
    rw [h0]
  have e1 : login reqW db tr0 secret compare t1
      = ⟨401, false, some "Invalid credentials", none, none, none,
          jsMapSet tr0 (loginIdentifier reqW) ⟨1, t1, false⟩, true, true⟩ := by
    simp only [login, if_neg hvalW, hb0, Bool.false_eq_true, if_false,
      hfind, hcmpW, hrf1]
  have hg1 : jsMapGet (jsMapSet tr0 (loginIdentifier reqW) ⟨1, t1, false⟩)
      (loginIdentifier reqW) = some ⟨1, t1, false⟩ := by
    simp [jsMapGet_set]
  have hb1 : isBlocked (jsMapSet tr0 (loginIdentifier reqW) ⟨1, t1, false⟩)
      (loginIdentifier reqW) t2
      = (false, jsMapSet tr0 (loginIdentifier reqW) ⟨1, t1, false⟩) := by
    unfold isBlocked
    rw [hg1]
    simp
  have hrf2 : recordFailure (jsMapSet tr0 (loginIdentifier reqW)
        ⟨1, t1, false⟩) (loginIdentifier reqW) t2
      = (false, jsMapSet (jsMapSet tr0 (loginIdentifier reqW) ⟨1, t1, false⟩)
          (loginIdentifier reqW) ⟨2, t1, false⟩) := by
    unfold recordFailure
    rw [hg1]
    have hcond : ¬ ((t2 : Int) - (t1 : Int) > (WINDOW_MS : Int)) := by omega
    simp [hcond, MAX_ATTEMPTS]
  have e2 : login reqW db (jsMapSet tr0 (loginIdentifier reqW) ⟨1, t1, false⟩)
        secret compare t2
      = ⟨401, false, some "Invalid credentials", none, none, none,
          jsMapSet (jsMapSet tr0 (loginIdentifier reqW) ⟨1, t1, false⟩)
            (loginIdentifier reqW) ⟨2, t1, false⟩, true, true⟩ := by
    simp only [login, if_neg hvalW, hb1, Bool.false_eq_true, if_false,
      hfind, hcmpW, hrf2]
  have hg2 : jsMapGet (jsMapSet (jsMapSet tr0 (loginIdentifier reqW)
        ⟨1, t1, false⟩) (loginIdentifier reqW) ⟨2, t1, false⟩)
      (loginIdentifier reqW) = some ⟨2, t1, false⟩ := by
    simp [jsMapGet_set]
  have hb2 : isBlocked (jsMapSet (jsMapSet tr0 (loginIdentifier reqW)
        ⟨1, t1, false⟩) (loginIdentifier reqW) ⟨2, t1, false⟩)
      (loginIdentifier reqW) t3
      = (false, jsMapSet (jsMapSet tr0 (loginIdentifier reqW) ⟨1, t1, false⟩)
          (loginIdentifier reqW) ⟨2, t1, false⟩) := by
    unfold isBlocked
    rw [hg2]
    simp
  have hrf3 : recordFailure (jsMapSet (jsMapSet tr0 (loginIdentifier reqW)
        ⟨1, t1, false⟩) (loginIdentifier reqW) ⟨2, t1, false⟩)
      (loginIdentifier reqW) t3
      = (true, jsMapSet (jsMapSet (jsMapSet tr0 (loginIdentifier reqW)
          ⟨1, t1, false⟩) (loginIdentifier reqW) ⟨2, t1, false⟩)
          (loginIdentifier reqW) ⟨3, t3, true⟩) := by
    unfold recordFailure
    rw [hg2]
    have hcond : ¬ ((t3 : Int) - (t1 : Int) > (WINDOW_MS : Int)) := by omega
    simp [hcond, MAX_ATTEMPTS]
  have e3 : login reqW db (jsMapSet (jsMapSet tr0 (loginIdentifier reqW)
        ⟨1, t1, false⟩) (loginIdentifier reqW) ⟨2, t1, false⟩) secret
        compare t3
      = ⟨401, false, some "Invalid credentials", none, none, none,
          jsMapSet (jsMapSet (jsMapSet tr0 (loginIdentifier reqW)
            ⟨1, t1, false⟩) (loginIdentifier reqW) ⟨2, t1, false⟩)
            (loginIdentifier reqW) ⟨3, t3, true⟩, true, true⟩ := by
    simp only [login, if_neg hvalW, hb2, Bool.false_eq_true, if_false,
      hfind, hcmpW, hrf3]
  have hg3 : jsMapGet (jsMapSet (jsMapSet (jsMapSet tr0
        (loginIdentifier reqW) ⟨1, t1, false⟩) (loginIdentifier reqW)
        ⟨2, t1, false⟩) (loginIdentifier reqW) ⟨3, t3, true⟩)
      (loginIdentifier reqW) = some ⟨3, t3, true⟩ := by
    simp [jsMapGet_set]
  have hb3 : isBlocked (jsMapSet (jsMapSet (jsMapSet tr0
        (loginIdentifier reqW) ⟨1, t1, false⟩) (loginIdentifier reqW)
        ⟨2, t1, false⟩) (loginIdentifier reqW) ⟨3, t3, true⟩)
      (loginIdentifier reqW) t4
      = (true, jsMapSet (jsMapSet (jsMapSet tr0 (loginIdentifier reqW)
          ⟨1, t1, false⟩) (loginIdentifier reqW) ⟨2, t1, false⟩)
          (loginIdentifier reqW) ⟨3, t3, true⟩) := by
    unfold isBlocked
    rw [hg3]
    have hcond : ¬ ((t4 : Int) - (t3 : Int) > (BLOCK_DURATION_MS : Int)) := by
      omega
    simp [hcond]
  have hrem : getBlockTimeRemaining (jsMapSet (jsMapSet (jsMapSet tr0
        (loginIdentifier reqW) ⟨1, t1, false⟩) (loginIdentifier reqW)
        ⟨2, t1, false⟩) (loginIdentifier reqW) ⟨3, t3, true⟩)
      (loginIdentifier reqW) t4
      = jsMathCeilDiv ((BLOCK_DURATION_MS : Int) - ((t4 : Int) - (t3 : Int)))
          (60 * 1000) := by
    unfold getBlockTimeRemaining
    rw [hg3]
    simp
  have e4 : login reqC db (jsMapSet (jsMapSet (jsMapSet tr0
        (loginIdentifier reqW) ⟨1, t1, false⟩) (loginIdentifier reqW)
        ⟨2, t1, false⟩) (loginIdentifier reqW) ⟨3, t3, true⟩) secret
        compare t4
      = ⟨429, false,
          some ("Too many failed login attempts. Please try again in "
            ++ toString (jsMathCeilDiv ((BLOCK_DURATION_MS : Int)
                - ((t4 : Int) - (t3 : Int))) (60 * 1000)) ++ " minutes."),
          none, none, none,
          jsMapSet (jsMapSet (jsMapSet tr0 (loginIdentifier reqW)
            ⟨1, t1, false⟩) (loginIdentifier reqW) ⟨2, t1, false⟩)
            (loginIdentifier reqW) ⟨3, t3, true⟩, false, false⟩ := by
    simp only [login, if_neg hvalC, hid, hb3, if_true, hrem]
  simp [e1, e2, e3, e4, hg3]

/-- Concrete instantiation of
`C3_third_attempt_generic_fourth_blocked` on the C3 scenario. -/
theorem C3_witness :
    c3attempt3.status = 401 ∧
    c3attempt3.error = some "Invalid credentials" ∧
    jsMapGet c3attempt3.tracker (loginIdentifier c3reqWrong)
        = some ⟨3, 2000, true⟩ ∧
    c3attempt4.status = 429 ∧
    c3attempt4.error
        = some ("Too many failed login attempts. Please try again in "
          ++ toString (jsMathCeilDiv ((BLOCK_DURATION_MS : Int)
              - ((60000 : Int) - (2000 : Int))) (60 * 1000))
          ++ " minutes.") := by
  have h := C3_third_attempt_generic_fourth_blocked c3db
    ⟨1, "a@b", "admin", "admin", "hash"⟩ c3reqWrong c3reqRight (some "s")
    c3compare 0 1000 2000 60000 emptyTracker
    (by decide) (by decide) (by decide) (by decide) (by decide)
    (by decide) (by decide) (by decide) (by decide) (by decide)
    (by decide) (by decide) (by decide) (by decide) (by decide) (by decide)
  exact h
